import Mathlib

/-!
Verification development for the GPU context core (`GrContext.cpp`):
scratch texture allocation and its relaxation search, the resource-cache
detach protocol, the deferred draw buffer and its flush rules, paint
application, the pixel read/write flush policy, the oval fast path, and
path-renderer selection.

Machine integers are modelled as `Nat` (no value in the translated code
paths depends on fixed-width overflow), scalars as `ℚ`, and external
collaborators (device, path-renderer chain, matrix primitives) as
parameters or small faithful models.
-/

/-- Texture usage flag bits consulted by the scratch allocator:
`kRenderTarget_GrTextureFlagBit` and `kNoStencil_GrTextureFlagBit`. -/
structure GrTextureFlags where
  renderTarget : Bool
  noStencil : Bool
  deriving DecidableEq, Repr

/-- `GrTextureDesc`: usage flags, width, height and pixel config. -/
structure GrTextureDesc where
  flags : GrTextureFlags
  width : Nat
  height : Nat
  config : Nat
  deriving DecidableEq, Repr

/-- `ScratchTexMatch`: `kExact_ScratchTexMatch` or `kApprox_ScratchTexMatch`. -/
inductive ScratchTexMatch
  | exact
  | approx
  deriving DecidableEq, Repr

/-- Helper for `grNextPow2`: double `p` until it reaches `n`, with enough
fuel that the bound is never hit for the start value `1`. -/
def grNextPow2Go (n : Nat) : Nat → Nat → Nat
  | 0, p => p
  | Nat.succ fuel, p => if n ≤ p then p else grNextPow2Go n fuel (2 * p)

/-- `GrNextPow2`: the smallest power of two that is at least `n`
(`1` for `n = 0`), written by fuel-bounded doubling so the kernel can
evaluate it on concrete inputs. -/
def grNextPow2 (n : Nat) : Nat := grNextPow2Go n n 1

/-- The scratch-relevant view of `GrResourceCache`: the lookup index of
attached entries (scratch key descriptor paired with a resource id), the
entries currently detached for exclusive checkout, and a counter producing
fresh ids for textures created by the device. -/
structure CacheState where
  attached : List (GrTextureDesc × Nat)
  detached : List (GrTextureDesc × Nat)
  nextId : Nat
  deriving DecidableEq, Repr

/-- `GrResourceCache::findAndLock` restricted to the lookup index: the
first attached entry whose scratch key matches the descriptor. -/
def CacheState.find (c : CacheState) (d : GrTextureDesc) : Option Nat :=
  (c.attached.find? (fun e => e.1 == d)).map (fun e => e.2)

/-- `GrResourceCache::detach`: remove a resource's entry from the lookup
index while keeping the entry alive (exclusive scratch checkout). -/
def CacheState.detach (c : CacheState) (r : Nat) : CacheState :=
  { c with
    attached := c.attached.filter (fun e => e.2 ≠ r),
    detached := c.attached.filter (fun e => e.2 = r) ++ c.detached }

/-- The cache with an empty lookup index. -/
def emptyCache : CacheState := ⟨[], [], 0⟩

/-- Result of the relaxation search loop in `GrContext::lockScratchTexture`:
the cache hit (if any), the descriptors looked up in order, and the final
value of the mutated descriptor variable. -/
structure RelaxResult where
  found : Option Nat
  attempts : List GrTextureDesc
  finalDesc : GrTextureDesc
  deriving DecidableEq, Repr

/-- Termination measure for the relaxation loop: each flag relaxation
strictly shrinks it, and each size doubling pays for its flag reset. -/
def relaxMeasure (desc : GrTextureDesc) (doubledW doubledH : Bool) : Nat :=
  (cond doubledH 0 8) + (cond doubledW 0 4) +
    (cond desc.flags.renderTarget 0 2) + (cond desc.flags.noStencil 1 0)

theorem relaxMeasure_addRT (desc : GrTextureDesc) (dW dH : Bool)
    (h : desc.flags.renderTarget = false) :
    relaxMeasure { desc with flags := { desc.flags with renderTarget := true } } dW dH <
      relaxMeasure desc dW dH := by
  rcases desc with ⟨⟨rt, ns⟩, w, ht, cf⟩
  cases ns <;> cases dW <;> cases dH <;> simp_all [relaxMeasure]

theorem relaxMeasure_dropNS (desc : GrTextureDesc) (dW dH : Bool)
    (h : desc.flags.noStencil = true) :
    relaxMeasure { desc with flags := { desc.flags with noStencil := false } } dW dH <
      relaxMeasure desc dW dH := by
  rcases desc with ⟨⟨rt, ns⟩, w, ht, cf⟩
  cases rt <;> cases dW <;> cases dH <;> simp_all [relaxMeasure]

theorem relaxMeasure_doubleW (inFlags : GrTextureFlags) (desc : GrTextureDesc) (dH : Bool)
    (h1 : ¬desc.flags.renderTarget = false) (h2 : ¬desc.flags.noStencil = true) :
    relaxMeasure { desc with flags := inFlags, width := desc.width * 2 } true dH <
      relaxMeasure desc false dH := by
  rcases desc with ⟨⟨rt, ns⟩, w, ht, cf⟩
  rcases inFlags with ⟨irt, ins⟩
  cases irt <;> cases ins <;> cases dH <;> simp_all [relaxMeasure]

theorem relaxMeasure_doubleH (inFlags : GrTextureFlags) (origWidth : Nat)
    (desc : GrTextureDesc) (dW : Bool) (h1 : ¬dW = false) :
    relaxMeasure { desc with flags := inFlags, width := origWidth, height := desc.height * 2 }
        dW true <
      relaxMeasure desc dW false := by
  rcases desc with ⟨⟨rt, ns⟩, w, ht, cf⟩
  rcases inFlags with ⟨irt, ins⟩
  cases rt <;> cases ns <;> cases irt <;> cases ins <;> simp_all [relaxMeasure]

/-- The `do { ... } while (true)` relaxation loop of
`GrContext::lockScratchTexture`: look the descriptor up; on a miss (and
`Approximate` match) relax it by the first applicable rule — allow render
target, drop the no-stencil bit, double the width (resetting flags to the
caller's), double the height (resetting flags and width) — and retry;
stop once a match is found or all relaxations are exhausted. -/
def relaxLoop (c : CacheState) (inFlags : GrTextureFlags) (origWidth : Nat)
    (mt : ScratchTexMatch) (desc : GrTextureDesc)
    (doubledW doubledH : Bool) : RelaxResult :=
  if (c.find desc).isSome ∨ mt = ScratchTexMatch.exact then
    ⟨c.find desc, [desc], desc⟩
  else if hrt : desc.flags.renderTarget = false then
    let r := relaxLoop c inFlags origWidth mt
      { desc with flags := { desc.flags with renderTarget := true } } doubledW doubledH
    ⟨r.found, desc :: r.attempts, r.finalDesc⟩
  else if hns : desc.flags.noStencil = true then
    let r := relaxLoop c inFlags origWidth mt
      { desc with flags := { desc.flags with noStencil := false } } doubledW doubledH
    ⟨r.found, desc :: r.attempts, r.finalDesc⟩
  else if hw : doubledW = false then
    let r := relaxLoop c inFlags origWidth mt
      { desc with flags := inFlags, width := desc.width * 2 } true doubledH
    ⟨r.found, desc :: r.attempts, r.finalDesc⟩
  else if hh : doubledH = false then
    let r := relaxLoop c inFlags origWidth mt
      { desc with flags := inFlags, width := origWidth, height := desc.height * 2 } doubledW true
    ⟨r.found, desc :: r.attempts, r.finalDesc⟩
  else
    ⟨none, [desc], desc⟩
termination_by relaxMeasure desc doubledW doubledH
decreasing_by
  · exact relaxMeasure_addRT _ _ _ hrt
  · exact relaxMeasure_dropNS _ _ _ hns
  · rw [hw]; exact relaxMeasure_doubleW _ _ _ hrt hns
  · rw [hh]; exact relaxMeasure_doubleH _ _ _ _ hw

/-- `GrContext::lockScratchTexture` outcome: the resource returned (if
any), the updated cache, the sequence of cache lookups attempted, and the
descriptor and id passed to device creation when the fallback ran. -/
structure ScratchResult where
  res : Option Nat
  cache : CacheState
  attempts : List GrTextureDesc
  created : Option (GrTextureDesc × Nat)
  deriving DecidableEq, Repr

/-- `GrContext::lockScratchTexture` over the cache model. `canCreate`
abstracts whether `fGpu->createTexture` succeeds; a created texture keeps
the descriptor it was created with and is keyed by it. -/
def lockScratchTexture (canCreate : GrTextureDesc → Bool) (c : CacheState)
    (inDesc : GrTextureDesc) (mt : ScratchTexMatch) : ScratchResult :=
  let desc : GrTextureDesc :=
    if mt ≠ ScratchTexMatch.exact then
      { inDesc with
        width := max 256 (grNextPow2 inDesc.width),
        height := max 256 (grNextPow2 inDesc.height) }
    else inDesc
  let origWidth := desc.width
  let origHeight := desc.height
  let L := relaxLoop c inDesc.flags origWidth mt desc false false
  match L.found with
  | some r =>
      ⟨some r, c.detach r, L.attempts, none⟩
  | none =>
      let createDesc : GrTextureDesc :=
        { L.finalDesc with flags := inDesc.flags, width := origWidth, height := origHeight }
      if canCreate createDesc then
        let r := c.nextId
        let c1 : CacheState :=
          { c with attached := (createDesc, r) :: c.attached, nextId := c.nextId + 1 }
        ⟨some r, c1.detach r, L.attempts, some (createDesc, r)⟩
      else
        ⟨none, c, L.attempts, none⟩

theorem emptyCache_find (d : GrTextureDesc) : emptyCache.find d = none := rfl

/-- C3 counterexample: for an `Approximate` request of 100×100 on an
always-missing cache, device creation receives width and height 256 (the
binned sizes), not the caller's 100 — the claim's "width and height as
passed in" fails. -/
theorem lockScratchTexture_creation_not_caller_sized :
    (lockScratchTexture (fun _ => true) emptyCache
      ⟨⟨false, false⟩, 100, 100, 0⟩ ScratchTexMatch.approx).created =
      some (⟨⟨false, false⟩, 256, 256, 0⟩, 0) ∧ (256 : Nat) ≠ 100 := by
  constructor
  · simp [lockScratchTexture, relaxLoop, emptyCache, CacheState.find,
      grNextPow2, grNextPow2Go]
  · decide

/-- C3 (amended): when every lookup of the relaxation search misses,
`lockScratchTexture` allocates from the device using the caller's flags
and the pow2-binned (min 256) width and height — the unrelaxed descriptor
after the `Approximate` binning step, or exactly the caller's descriptor
for `Exact` — and registers the new texture in the cache under that
descriptor's key (checked out, hence on the detached list). -/
theorem lockScratchTexture_creates_binned_unrelaxed (w h cfg : Nat)
    (f : GrTextureFlags) (canCreate : GrTextureDesc → Bool)
    (hap : canCreate ⟨f, max 256 (grNextPow2 w), max 256 (grNextPow2 h), cfg⟩ = true)
    (hex : canCreate ⟨f, w, h, cfg⟩ = true) :
    ((lockScratchTexture canCreate emptyCache ⟨f, w, h, cfg⟩ ScratchTexMatch.approx).created =
      some (⟨f, max 256 (grNextPow2 w), max 256 (grNextPow2 h), cfg⟩, 0) ∧
     (lockScratchTexture canCreate emptyCache
        ⟨f, w, h, cfg⟩ ScratchTexMatch.approx).cache.detached =
      [(⟨f, max 256 (grNextPow2 w), max 256 (grNextPow2 h), cfg⟩, 0)]) ∧
    ((lockScratchTexture canCreate emptyCache ⟨f, w, h, cfg⟩ ScratchTexMatch.exact).created =
      some (⟨f, w, h, cfg⟩, 0) ∧
     (lockScratchTexture canCreate emptyCache
        ⟨f, w, h, cfg⟩ ScratchTexMatch.exact).cache.detached =
      [(⟨f, w, h, cfg⟩, 0)]) := by
  rcases f with ⟨rt, ns⟩
  cases rt <;> cases ns <;>
    refine ⟨⟨?_, ?_⟩, ?_, ?_⟩ <;>
      simp [lockScratchTexture, relaxLoop, emptyCache, CacheState.find,
        CacheState.detach, hap, hex]

/-- The flag relaxations the spec claims at one size bin, in order: the
descriptor as given, then with the render-target bit added when it was not
requested, then additionally with the no-stencil bit removed when stencil
was excluded. -/
def claimedFlagPhase (f : GrTextureFlags) (w h cfg : Nat) : List GrTextureDesc :=
  [⟨f, w, h, cfg⟩] ++
    (if f.renderTarget = false then [⟨⟨true, f.noStencil⟩, w, h, cfg⟩] else []) ++
    (if f.noStencil = true then [⟨⟨true, false⟩, w, h, cfg⟩] else [])

/-- The full lookup sequence the spec claims for an `Approximate` request
that always misses: flag relaxations at the binned size, then (flags reset
to the caller's) at doubled width, then (width also reset) at doubled
height. -/
def claimedRelaxationAttempts (f : GrTextureFlags) (w h cfg : Nat) : List GrTextureDesc :=
  claimedFlagPhase f w h cfg ++ claimedFlagPhase f (w * 2) h cfg ++
    claimedFlagPhase f w (h * 2) cfg

/-- C1: on an always-missing cache, an `Approximate` scratch request
retries the lookup under the fixed relaxation order — render-target flag,
no-stencil flag, width doubling (flags reset to the caller's), height
doubling (flags and width reset) — and falls back to device creation with
the binned original descriptor only after all relaxations are exhausted;
with `Exact` match a single lookup is made and no relaxation is attempted. -/
theorem lockScratchTexture_relaxation_order (w h cfg : Nat) (f : GrTextureFlags)
    (canCreate : GrTextureDesc → Bool) :
    ((lockScratchTexture canCreate emptyCache ⟨f, w, h, cfg⟩ ScratchTexMatch.approx).attempts =
      claimedRelaxationAttempts f (max 256 (grNextPow2 w)) (max 256 (grNextPow2 h)) cfg) ∧
    ((lockScratchTexture canCreate emptyCache ⟨f, w, h, cfg⟩ ScratchTexMatch.exact).attempts =
      [⟨f, w, h, cfg⟩]) ∧
    (canCreate ⟨f, max 256 (grNextPow2 w), max 256 (grNextPow2 h), cfg⟩ = true →
      (lockScratchTexture canCreate emptyCache ⟨f, w, h, cfg⟩ ScratchTexMatch.approx).created =
        some (⟨f, max 256 (grNextPow2 w), max 256 (grNextPow2 h), cfg⟩, 0)) := by
  rcases f with ⟨rt, ns⟩
  cases rt <;> cases ns <;>
    refine ⟨?_, ?_, fun hc => ?_⟩ <;>
      simp [lockScratchTexture, relaxLoop, emptyCache, CacheState.find,
        claimedRelaxationAttempts, claimedFlagPhase, *] <;>
      (try (split <;> simp))

theorem find_mem_attached (c : CacheState) (d : GrTextureDesc) (r : Nat)
    (h : c.find d = some r) : r ∈ c.attached.map (fun e => e.2) := by
  unfold CacheState.find at h
  rcases hf : c.attached.find? (fun e => e.1 == d) with _ | e
  · rw [hf] at h; simp at h
  · rw [hf] at h
    simp at h
    subst h
    exact List.mem_map.mpr ⟨e, List.mem_of_find?_eq_some hf, rfl⟩

theorem relaxLoop_found_mem (c : CacheState) (inFlags : GrTextureFlags)
    (origWidth : Nat) (mt : ScratchTexMatch) (desc : GrTextureDesc)
    (dW dH : Bool) (r : Nat) :
    (relaxLoop c inFlags origWidth mt desc dW dH).found = some r →
    r ∈ c.attached.map (fun e => e.2) := by
  refine relaxLoop.induct c inFlags origWidth mt
    (fun d a b => (relaxLoop c inFlags origWidth mt d a b).found = some r →
      r ∈ c.attached.map (fun e => e.2)) ?_ ?_ ?_ ?_ ?_ ?_ desc dW dH
  · intro d a b hcond hsome
    unfold relaxLoop at hsome
    simp [hcond] at hsome
    exact find_mem_attached _ _ _ hsome
  · intro d a b hcond hrt ih hsome
    unfold relaxLoop at hsome
    simp [hcond, hrt] at hsome
    exact ih hsome
  · intro d a b hcond hrt hns ih hsome
    unfold relaxLoop at hsome
    simp [hcond, hrt, hns] at ih hsome
    simpa using ih hsome
  · intro d a hcond hrt hns ih hsome
    unfold relaxLoop at hsome
    simp [hcond, hrt, hns] at ih hsome
    simpa using ih hsome
  · intro d a hcond hrt hns hw ih hsome
    unfold relaxLoop at hsome
    simp [hcond, hrt, hns, hw] at ih hsome
    simpa using ih hsome
  · intro d a b hcond hrt hns hw hh hsome
    unfold relaxLoop at hsome
    simp [hcond, hrt, hns, hw, hh] at hsome

theorem detach_not_mem (c : CacheState) (r : Nat) :
    r ∉ (c.detach r).attached.map (fun e => e.2) := by
  intro hmem
  rcases List.mem_map.mp hmem with ⟨e, he, hr⟩
  rcases List.mem_filter.mp he with ⟨_, hne⟩
  simp_all

theorem detach_nextId (c : CacheState) (r : Nat) : (c.detach r).nextId = c.nextId := rfl

theorem lockScratchTexture_shape (canCreate : GrTextureDesc → Bool) (c : CacheState)
    (inDesc : GrTextureDesc) (mt : ScratchTexMatch) :
    (∃ r, (lockScratchTexture canCreate c inDesc mt).res = some r ∧
      (lockScratchTexture canCreate c inDesc mt).cache = c.detach r ∧
      r ∈ c.attached.map (fun e => e.2)) ∨
    (∃ d, (lockScratchTexture canCreate c inDesc mt).res = some c.nextId ∧
      (lockScratchTexture canCreate c inDesc mt).cache =
        CacheState.detach ⟨(d, c.nextId) :: c.attached, c.detached, c.nextId + 1⟩ c.nextId) ∨
    ((lockScratchTexture canCreate c inDesc mt).res = none ∧
      (lockScratchTexture canCreate c inDesc mt).cache = c) := by
  unfold lockScratchTexture
  dsimp only
  split
  · rename_i heq
    exact Or.inl ⟨_, rfl, rfl, relaxLoop_found_mem _ _ _ _ _ _ _ _ heq⟩
  · repeat' split
    all_goals
      first
        | exact Or.inr (Or.inl ⟨_, rfl, rfl⟩)
        | exact Or.inr (Or.inr ⟨rfl, rfl⟩)

/-- C2: every resource returned by `lockScratchTexture` (cache hit or fresh
device creation) is detached from the cache's lookup index before being
returned, and a second `lockScratchTexture` call with the identical
descriptor, issued before the first result is released, returns a distinct
resource — never the same instance twice. -/
theorem lockScratchTexture_exclusive (canCreate : GrTextureDesc → Bool)
    (c : CacheState) (inDesc : GrTextureDesc) (mt : ScratchTexMatch)
    (hwf : ∀ e ∈ c.attached, e.2 < c.nextId) :
    (∀ r, (lockScratchTexture canCreate c inDesc mt).res = some r →
      r ∉ (lockScratchTexture canCreate c inDesc mt).cache.attached.map (fun e => e.2)) ∧
    (∀ r1 r2, (lockScratchTexture canCreate c inDesc mt).res = some r1 →
      (lockScratchTexture canCreate
        (lockScratchTexture canCreate c inDesc mt).cache inDesc mt).res = some r2 →
      r1 ≠ r2) := by
  have detachAll : ∀ r, (lockScratchTexture canCreate c inDesc mt).res = some r →
      r ∉ (lockScratchTexture canCreate c inDesc mt).cache.attached.map (fun e => e.2) := by
    intro r hres
    rcases lockScratchTexture_shape canCreate c inDesc mt with
      ⟨r', he, hc, _⟩ | ⟨d, he, hc⟩ | ⟨he, _⟩
    · obtain rfl : r' = r := by
        have := he.symm.trans hres
        injection this
      rw [hc]
      exact detach_not_mem c _
    · obtain rfl : c.nextId = r := by
        have := he.symm.trans hres
        injection this
      rw [hc]
      exact detach_not_mem _ _
    · rw [he] at hres
      cases hres
  refine ⟨detachAll, ?_⟩
  intro r1 r2 h1 h2
  have hnotmem := detachAll r1 h1
  have hlt : (lockScratchTexture canCreate c inDesc mt).cache.nextId = c.nextId ∨
      ((lockScratchTexture canCreate c inDesc mt).cache.nextId = c.nextId + 1 ∧
        r1 = c.nextId) := by
    rcases lockScratchTexture_shape canCreate c inDesc mt with
      ⟨r', he, hc, _⟩ | ⟨d, he, hc⟩ | ⟨he, _⟩
    · rw [hc]; exact Or.inl rfl
    · obtain rfl : c.nextId = r1 := by
        have := he.symm.trans h1
        injection this
      rw [hc]
      exact Or.inr ⟨rfl, rfl⟩
    · rw [he] at h1; cases h1
  have hr1lt : r1 ≤ c.nextId := by
    rcases lockScratchTexture_shape canCreate c inDesc mt with
      ⟨r', he, hc, hm⟩ | ⟨d, he, hc⟩ | ⟨he, _⟩
    · obtain rfl : r' = r1 := by
        have := he.symm.trans h1
        injection this
      rcases List.mem_map.mp hm with ⟨e, hemem, herr⟩
      exact le_of_lt (herr ▸ hwf e hemem)
    · obtain rfl : c.nextId = r1 := by
        have := he.symm.trans h1
        injection this
      exact le_rfl
    · rw [he] at h1; cases h1
  rcases lockScratchTexture_shape canCreate
      (lockScratchTexture canCreate c inDesc mt).cache inDesc mt with
    ⟨r', he, hc, hm⟩ | ⟨d, he, hc⟩ | ⟨he, _⟩
  · obtain rfl : r' = r2 := by
      have := he.symm.trans h2
      injection this
    intro hcontra
    exact hnotmem (hcontra ▸ hm)
  · obtain rfl : (lockScratchTexture canCreate c inDesc mt).cache.nextId = r2 := by
      have := he.symm.trans h2
      injection this
    rcases hlt with hn | ⟨hn, hr1⟩
    · intro hcontra
      rcases lockScratchTexture_shape canCreate c inDesc mt with
        ⟨r1x, he1, hc1, hm1⟩ | ⟨d1, he1, hc1⟩ | ⟨he1, _⟩
      · obtain rfl : r1x = r1 := by
          have := he1.symm.trans h1
          injection this
        rcases List.mem_map.mp hm1 with ⟨e, hemem, herr⟩
        have := hwf e hemem
        omega
      · obtain rfl : c.nextId = r1 := by
          have := he1.symm.trans h1
          injection this
        rw [hc1] at hn
        simp [CacheState.detach] at hn
        try omega
      · rw [he1] at h1; cases h1
    · omega
  · rw [he] at h2; cases h2

/-! Draw state, paint application and the deferred draw buffer. -/

/-- Modelled from the spec: the paint/draw-state stage layout — per-stage
texture samplers followed by mask samplers (`GrPaint.h` and
`GrDrawState.h` lie outside the translated sources). The exact counts do
not affect the claims proved about `setPaint`. -/
def kMaxTextures : Nat := 2

def kMaxMasks : Nat := 1

def kFirstTextureStage : Nat := 0

def kFirstMaskStage : Nat := kMaxTextures

def kTotalStages : Nat := kMaxTextures + kMaxMasks

def kNumStages : Nat := 4

/-- A sampler state, treated as an opaque value copied wholesale. -/
abbrev GrSamplerState := Nat

/-- The paint-level configuration `setPaint` reads. -/
structure GrPaint where
  textureEnabled : Nat → Bool
  textureSampler : Nat → GrSamplerState
  maskEnabled : Nat → Bool
  maskSampler : Nat → GrSamplerState
  color : Nat
  dither : Bool
  antiAlias : Bool
  colorMatrixEnabled : Bool
  colorMatrix : Nat
  srcBlendCoeff : Nat
  dstBlendCoeff : Nat
  colorFilterColor : Nat
  colorFilterXfermode : Nat
  coverage : Nat

/-- The live `GrDrawState` fields `setPaint` writes. -/
@[ext]
structure GrDrawState where
  samplers : Nat → GrSamplerState
  stageEnabled : Nat → Bool
  firstCoverageStage : Nat
  color : Nat
  ditherBit : Bool
  hwAntialiasBit : Bool
  colorMatrixBit : Bool
  colorMatrix : Nat
  srcBlendCoeff : Nat
  dstBlendCoeff : Nat
  colorFilterColor : Nat
  colorFilterXfermode : Nat
  coverage : Nat

/-- `GrContext::setPaint`: copy enabled texture/mask samplers into their
stages, set the first coverage stage, disable the stages the paint cannot
reach, and copy color, dither, antialias, color matrix, blend, color
filter and coverage. A pure draw-state projection. -/
def setPaint (p : GrPaint) (ds : GrDrawState) : GrDrawState :=
  { ds with
    samplers := fun s =>
      if kFirstTextureStage ≤ s ∧ s < kFirstTextureStage + kMaxTextures ∧
          p.textureEnabled (s - kFirstTextureStage) then
        p.textureSampler (s - kFirstTextureStage)
      else if kFirstMaskStage ≤ s ∧ s < kFirstMaskStage + kMaxMasks ∧
          p.maskEnabled (s - kFirstMaskStage) then
        p.maskSampler (s - kFirstMaskStage)
      else ds.samplers s,
    firstCoverageStage := kFirstMaskStage,
    stageEnabled := fun s =>
      if kTotalStages ≤ s ∧ s < kNumStages then false else ds.stageEnabled s,
    color := p.color,
    ditherBit := p.dither,
    hwAntialiasBit := p.antiAlias,
    colorMatrixBit := p.colorMatrixEnabled,
    colorMatrix := if p.colorMatrixEnabled then p.colorMatrix else ds.colorMatrix,
    srcBlendCoeff := p.srcBlendCoeff,
    dstBlendCoeff := p.dstBlendCoeff,
    colorFilterColor := p.colorFilterColor,
    colorFilterXfermode := p.colorFilterXfermode,
    coverage := p.coverage }

/-- A recorded draw-buffer command, opaque to the context. -/
abbrev Cmd := Nat

/-- The `GrContext` state the draw-buffer claims touch: the draw state,
the buffered/unbuffered history bit, the draw-buffer member (`none` models
a null `fDrawBuffer`) with its recorded commands, the clips, the device's
replay log, and a count of `flushTo` invocations. -/
structure GrContextState where
  drawState : GrDrawState
  lastDrawWasBuffered : Bool
  drawBuffer : Option (List Cmd)
  bufferClip : Nat
  gpuClip : Nat
  deviceLog : List Cmd
  flushCount : Nat

/-- `GrInOrderDrawBuffer::flushTo(fGpu)`: replay the recorded commands to
the device in order; the model also counts invocations. -/
def flushTo (cmds : List Cmd) (s : GrContextState) : GrContextState :=
  { s with deviceLog := s.deviceLog ++ cmds, flushCount := s.flushCount + 1 }

/-- `GrContext::flushDrawBuffer`, parameterized by what the buffer's
`flushTo` does so re-entrant flush requests arising inside device-side
work can be analyzed: a null draw buffer means no work; otherwise the
member is nulled for the duration of `flushTo` and restored (empty, as
`flushTo` clears the buffer it replays) afterwards. -/
def flushDrawBufferWith (doFlush : List Cmd → GrContextState → GrContextState)
    (s : GrContextState) : GrContextState :=
  match s.drawBuffer with
  | none => s
  | some cmds =>
      let s1 := { s with drawBuffer := none }
      let s2 := doFlush cmds s1
      { s2 with drawBuffer := some [] }

/-- `GrContext::flushDrawBuffer` with the real `flushTo`. -/
def flushDrawBuffer (s : GrContextState) : GrContextState :=
  flushDrawBufferWith flushTo s

/-- `GrContext::flush()` with default flags: neither `kDiscard` nor
`kForceCurrentRenderTarget`, hence exactly `flushDrawBuffer`. -/
def flush (s : GrContextState) : GrContextState :=
  flushDrawBuffer s

/-- `GrContext::setPaint` at the context level: every statement of the
source body writes through `fDrawState`; nothing touches the device. -/
def ctxSetPaint (p : GrPaint) (s : GrContextState) : GrContextState :=
  { s with drawState := setPaint p s.drawState }

/-- What `prepareToDraw` returns: the draw buffer or the device. -/
inductive DrawTargetRef
  | drawBuffer
  | gpu
  deriving DecidableEq, Repr

/-- `GrContext::prepareToDraw`: flush first when switching from a buffered
draw to an unbuffered one, apply the paint if provided, and return the
draw buffer (after handing it the device clip) when buffering was
requested, the device otherwise. -/
def prepareToDraw (paint : Option GrPaint) (buffered : Bool)
    (s : GrContextState) : DrawTargetRef × GrContextState :=
  let s1 := if buffered = false ∧ s.lastDrawWasBuffered = true then
      { flushDrawBuffer s with lastDrawWasBuffered := false }
    else s
  let s2 := match paint with
    | some p => ctxSetPaint p s1
    | none => s1
  if buffered then
    (DrawTargetRef.drawBuffer, { s2 with bufferClip := s2.gpuClip, lastDrawWasBuffered := true })
  else
    (DrawTargetRef.gpu, s2)

/-- C4: an unbuffered request right after a buffered draw performs exactly
one draw-buffer flush before the device target is returned; a buffered
request never flushes; the returned target is the draw buffer exactly when
buffering was requested and the device otherwise. -/
theorem prepareToDraw_transition (s : GrContextState) (paint : Option GrPaint) :
    (∀ cmds, s.drawBuffer = some cmds → s.lastDrawWasBuffered = true →
      (prepareToDraw paint false s).2.flushCount = s.flushCount + 1) ∧
    ((prepareToDraw paint true s).2.flushCount = s.flushCount) ∧
    ((prepareToDraw paint true s).1 = DrawTargetRef.drawBuffer) ∧
    ((prepareToDraw paint false s).1 = DrawTargetRef.gpu) := by
  refine ⟨?_, ?_, ?_, ?_⟩
  · intro cmds hbuf hlast
    cases paint <;>
      simp [prepareToDraw, ctxSetPaint, flushDrawBuffer, flushDrawBufferWith,
        flushTo, hbuf, hlast]
  · cases paint <;> simp [prepareToDraw, ctxSetPaint]
  · cases paint <;> simp [prepareToDraw]
  · cases paint <;> simp [prepareToDraw]

/-- C5: during `flushDrawBuffer` the draw-buffer member is nulled before
the buffer's `flushTo` runs and restored afterwards, and any flush request
made while no draw buffer is live does nothing — so a flush arriving
recursively during a flush never recurses into the buffer being flushed. -/
theorem flushDrawBuffer_reentrant_safe
    (doFlush : List Cmd → GrContextState → GrContextState)
    (s : GrContextState) (cmds : List Cmd) (hbuf : s.drawBuffer = some cmds) :
    (flushDrawBufferWith doFlush s =
      { doFlush cmds { s with drawBuffer := none } with drawBuffer := some [] }) ∧
    (({ s with drawBuffer := none } : GrContextState).drawBuffer = none) ∧
    (∀ t, t.drawBuffer = none → flushDrawBufferWith doFlush t = t) := by
  refine ⟨?_, rfl, ?_⟩
  · simp [flushDrawBufferWith, hbuf]
  · intro t ht
    simp [flushDrawBufferWith, ht]

/-- C9: `setPaint` makes no GPU/device calls — at the context level only
the draw-state member changes — and it is idempotent: applying the same
paint twice leaves the draw state identical to applying it once. -/
theorem setPaint_no_gpu_and_idempotent (p : GrPaint) (s : GrContextState)
    (ds : GrDrawState) :
    (ctxSetPaint p s).deviceLog = s.deviceLog ∧
    (ctxSetPaint p s).flushCount = s.flushCount ∧
    (ctxSetPaint p s).drawBuffer = s.drawBuffer ∧
    setPaint p (setPaint p ds) = setPaint p ds := by
  refine ⟨rfl, rfl, rfl, ?_⟩
  apply GrDrawState.ext <;> try rfl
  · funext x
    by_cases h1 : kFirstTextureStage ≤ x ∧ x < kFirstTextureStage + kMaxTextures ∧
        p.textureEnabled (x - kFirstTextureStage) <;>
      by_cases h2 : kFirstMaskStage ≤ x ∧ x < kFirstMaskStage + kMaxMasks ∧
          p.maskEnabled (x - kFirstMaskStage) <;>
        simp [setPaint, h1, h2]
  · funext x
    by_cases h1 : kTotalStages ≤ x ∧ x < kNumStages <;> simp [setPaint, h1]
  · by_cases h1 : p.colorMatrixEnabled <;> simp [setPaint, h1]

/-! Pixel read/write flush policy. -/

/-- The two `PixelOpsFlags` bits the pixel paths consult:
`kUnpremul_PixelOpsFlag` and `kDontFlush_PixelOpsFlag`. -/
structure PixelOpsFlags where
  unpremul : Bool
  dontFlush : Bool
  deriving DecidableEq, Repr

/-- Ordered effects of a pixel operation: the draw-buffer flush, device
touches (upload, readback, blit draw, scratch allocation) and the CPU
conversion pass. -/
inductive PixelEvent
  | flush
  | deviceWrite
  | deviceRead
  | deviceDraw
  | scratchAlloc
  | cpuConvert
  deriving DecidableEq, Repr

/-- Which events touch the device. -/
def PixelEvent.isDevice : PixelEvent → Bool
  | PixelEvent.deviceWrite => true
  | PixelEvent.deviceRead => true
  | PixelEvent.deviceDraw => true
  | PixelEvent.scratchAlloc => true
  | _ => false

/-- `GrContext::writeTexturePixels` effect trace: an unpremul request
returns immediately (the conversion is an unimplemented TODO in the
source); otherwise the draw buffer is flushed unless suppressed and the
device upload runs. The texture, rectangle and pixel-buffer arguments do
not influence this control flow and are omitted. -/
def writeTexturePixels (flags : PixelOpsFlags) : List PixelEvent :=
  if flags.unpremul then []
  else
    (if flags.dontFlush then [] else [PixelEvent.flush]) ++ [PixelEvent.deviceWrite]

/-- `GrPixelConfig`, distinguishing the two byte-per-channel 8888 configs
from everything else. -/
inductive GrPixelConfig
  | rgba8888
  | bgra8888
  | other (n : Nat)
  deriving DecidableEq, Repr

/-- `SkCanvas::Config8888` values produced by `grconfig_to_config8888`. -/
inductive Config8888
  | rgbaPremul
  | rgbaUnpremul
  | bgraPremul
  | bgraUnpremul
  deriving DecidableEq, Repr

/-- `grconfig_to_config8888`: only byte-per-channel formats have a
`Config8888` equivalent. -/
def grconfigToConfig8888 (c : GrPixelConfig) (unpremul : Bool) : Option Config8888 :=
  match c with
  | GrPixelConfig.rgba8888 =>
      some (if unpremul then Config8888.rgbaUnpremul else Config8888.rgbaPremul)
  | GrPixelConfig.bgra8888 =>
      some (if unpremul then Config8888.bgraUnpremul else Config8888.bgraPremul)
  | GrPixelConfig.other _ => none

/-- The external device/target facts `readRenderTargetPixels` consults. -/
structure ReadEnv where
  drawStateHasRT : Bool
  targetConfig : GrPixelConfig
  canPreserveUnpremul : Bool
  targetIsTexture : Bool
  swapPref : GrPixelConfig → Bool
  flipYPref : GrPixelConfig → Bool
  scratchOk : Bool

/-- `GrContext::readRenderTargetPixels` control and effect model: resolve
the target (fail silently when none), flush unless suppressed, then either
re-read raw and convert on the CPU (unpremul requested but not preserved
by the device; the recursive call suppresses the second flush), or blit
through a scratch render target when a flip/swap/unpremul conversion is
needed, and finally read back from the device. -/
def readRenderTargetPixels (env : ReadEnv) (targetProvided : Bool)
    (config : GrPixelConfig) (flags : PixelOpsFlags) : Bool × List PixelEvent :=
  if ¬targetProvided ∧ ¬env.drawStateHasRT then (false, [])
  else
    let evFlush : List PixelEvent := if flags.dontFlush then [] else [PixelEvent.flush]
    if hu : flags.unpremul ∧ ¬env.canPreserveUnpremul then
      if (grconfigToConfig8888 env.targetConfig false).isNone ∨
          (grconfigToConfig8888 config true).isNone then
        (false, evFlush)
      else
        let rr := readRenderTargetPixels env true env.targetConfig ⟨false, true⟩
        (true, evFlush ++ rr.2 ++ [PixelEvent.cpuConvert])
    else
      let swapRAndB := env.targetIsTexture ∧ env.swapPref config
      let flipY := env.targetIsTexture ∧ env.flipYPref config
      if ¬env.targetIsTexture ∧ flags.unpremul then (false, evFlush)
      else if flipY ∨ swapRAndB ∨ flags.unpremul then
        if ¬env.scratchOk then (false, evFlush)
        else
          (true, evFlush ++
            [PixelEvent.scratchAlloc, PixelEvent.deviceDraw, PixelEvent.deviceRead])
      else (true, evFlush ++ [PixelEvent.deviceRead])
termination_by cond flags.unpremul 1 0
decreasing_by
  simp [hu.1]

theorem read_dontFlush_noFlush (env : ReadEnv) (tp : Bool) (cfg : GrPixelConfig) :
    PixelEvent.flush ∉ (readRenderTargetPixels env tp cfg ⟨false, true⟩).2 := by
  unfold readRenderTargetPixels
  dsimp only
  split_ifs <;> simp_all

theorem read_noFlush (env : ReadEnv) (tp : Bool) (cfg : GrPixelConfig)
    (flags : PixelOpsFlags) (h : flags.dontFlush = true) :
    PixelEvent.flush ∉ (readRenderTargetPixels env tp cfg flags).2 := by
  unfold readRenderTargetPixels
  dsimp only
  split_ifs <;>
    simp_all [read_dontFlush_noFlush env true env.targetConfig]

theorem read_events_shape (env : ReadEnv) (tp : Bool) (cfg : GrPixelConfig)
    (flags : PixelOpsFlags) :
    (readRenderTargetPixels env tp cfg flags).2 = [] ∨
    ∃ rest, (readRenderTargetPixels env tp cfg flags).2 =
      (if flags.dontFlush then [] else [PixelEvent.flush]) ++ rest ∧
      PixelEvent.flush ∉ rest := by
  unfold readRenderTargetPixels
  dsimp only
  split_ifs
  all_goals
    first
      | exact Or.inl rfl
      | (refine Or.inr ⟨(readRenderTargetPixels env true env.targetConfig ⟨false, true⟩).2 ++
           [PixelEvent.cpuConvert], ?_, ?_⟩
         · simp
         · simp [read_dontFlush_noFlush env true env.targetConfig])
      | (refine Or.inr ⟨_, rfl, ?_⟩
         simp)

theorem write_events_shape (flags : PixelOpsFlags) :
    writeTexturePixels flags = [] ∨
    writeTexturePixels flags =
      (if flags.dontFlush then [] else [PixelEvent.flush]) ++ [PixelEvent.deviceWrite] := by
  unfold writeTexturePixels
  split_ifs <;> simp

/-- C8: every pixel read and every pixel write flushes the draw buffer
before touching the device — any device-touching effect is preceded by the
flush — unless the dont-flush suppression flag is passed, in which case no
flush occurs at all. -/
theorem pixelOps_flush_before_device (env : ReadEnv) (targetProvided : Bool)
    (config : GrPixelConfig) (flags : PixelOpsFlags) :
    (flags.dontFlush = true →
      PixelEvent.flush ∉ (readRenderTargetPixels env targetProvided config flags).2 ∧
      PixelEvent.flush ∉ writeTexturePixels flags) ∧
    (flags.dontFlush = false →
      (∀ i e, (readRenderTargetPixels env targetProvided config flags).2.get? i = some e →
        e.isDevice = true → ∃ j, j < i ∧
          (readRenderTargetPixels env targetProvided config flags).2.get? j =
            some PixelEvent.flush) ∧
      (∀ i e, (writeTexturePixels flags).get? i = some e → e.isDevice = true →
        ∃ j, j < i ∧ (writeTexturePixels flags).get? j = some PixelEvent.flush)) := by
  constructor
  · intro h
    refine ⟨read_noFlush env targetProvided config flags h, ?_⟩
    unfold writeTexturePixels
    split_ifs <;> simp_all
  · intro h
    constructor
    · intro i e hget hdev
      rcases read_events_shape env targetProvided config flags with hnil | ⟨rest, heq, _⟩
      · rw [hnil] at hget
        simp at hget
      · rw [heq, h] at hget
        match i with
        | 0 =>
            simp at hget
            rw [← hget] at hdev
            simp [PixelEvent.isDevice] at hdev
        | Nat.succ n =>
            refine ⟨0, Nat.succ_pos n, ?_⟩
            rw [heq, h]
            rfl
    · intro i e hget hdev
      rcases write_events_shape flags with hnil | heq
      · rw [hnil] at hget
        simp at hget
      · rw [heq, h] at hget
        match i with
        | 0 =>
            simp at hget
            rw [← hget] at hdev
            simp [PixelEvent.isDevice] at hdev
        | Nat.succ n =>
            refine ⟨0, Nat.succ_pos n, ?_⟩
            rw [heq, h]
            rfl

/-- C10: a `writeTexturePixels` call with the unpremultiplied-pixels flag
set returns immediately as a silent no-op: no flush is performed, no
pixels are uploaded to the device, and (the function being `void`) no
error is reported. -/
theorem writeTexturePixels_unpremul_noop (flags : PixelOpsFlags)
    (h : flags.unpremul = true) :
    writeTexturePixels flags = [] := by
  simp [writeTexturePixels, h]

/-! The oval fast path. -/

/-- Modelled from standard `SkMatrix` semantics (the matrix primitives are
external collaborators): row-major 3×3 entries over exact scalars. -/
structure SkMatrix where
  scaleX : ℚ
  skewX : ℚ
  transX : ℚ
  skewY : ℚ
  scaleY : ℚ
  transY : ℚ
  persp0 : ℚ
  persp1 : ℚ
  persp2 : ℚ
  deriving DecidableEq, Repr

/-- `SkMatrix::isIdentity`. -/
def SkMatrix.isIdentity (m : SkMatrix) : Bool :=
  decide (m.scaleX = 1 ∧ m.skewX = 0 ∧ m.transX = 0 ∧ m.skewY = 0 ∧
    m.scaleY = 1 ∧ m.transY = 0 ∧ m.persp0 = 0 ∧ m.persp1 = 0 ∧ m.persp2 = 1)

/-- `SkMatrix::getType() == SkMatrix::kTranslate_Mask`: translation is the
only component present. -/
def SkMatrix.typeIsTranslateOnly (m : SkMatrix) : Bool :=
  decide (m.scaleX = 1 ∧ m.skewX = 0 ∧ m.skewY = 0 ∧ m.scaleY = 1 ∧
    m.persp0 = 0 ∧ m.persp1 = 0 ∧ m.persp2 = 1 ∧ (m.transX ≠ 0 ∨ m.transY ≠ 0))

/-- `SkMatrix::hasPerspective`. -/
def SkMatrix.hasPerspective (m : SkMatrix) : Bool :=
  decide (m.persp0 ≠ 0 ∨ m.persp1 ≠ 0 ∨ m.persp2 ≠ 1)

/-- `SK_ScalarNearlyZero`, the default tolerance. -/
def skScalarNearlyZeroTol : ℚ := 1 / 4096

/-- `isSimilarityTransformation` (GrContext.cpp): true when the matrix
maps circles to circles — identity or pure translation, else no
perspective, not the degenerate all-zero upper block, and the two column
vectors nearly orthogonal with nearly equal squared lengths (tolerances
squared as in the source). -/
def isSimilarityTransformation (m : SkMatrix) (tol : ℚ) : Bool :=
  if m.isIdentity ∨ m.typeIsTranslateOnly then true
  else if m.hasPerspective then false
  else
    if m.scaleX = 0 ∧ m.skewX = 0 ∧ m.scaleY = 0 ∧ m.skewY = 0 then false
    else
      decide (|m.scaleX * m.skewY + m.skewX * m.scaleY| ≤ tol * tol ∧
        |(m.scaleX * m.scaleX + m.skewX * m.skewX) -
          (m.skewY * m.skewY + m.scaleY * m.scaleY)| ≤ tol * tol)

/-- `GrPathFill` values. -/
inductive GrPathFill
  | winding
  | evenOdd
  | inverseWinding
  | inverseEvenOdd
  | hairline
  deriving DecidableEq, Repr

/-- Where `drawOval` sends the oval. -/
inductive OvalRoute
  | circle
  | path (fill : GrPathFill)
  deriving DecidableEq, Repr

/-- `GrContext::drawOval` route selection: the specialized circle path
unless the view matrix is not a similarity transform, the paint is not
antialiased, or the rect is not square; the fallback converts the oval to
a path drawn hairline when the stroke width is zero and winding-filled
otherwise, through the generic path route. -/
def drawOvalRoute (viewMatrix : SkMatrix) (paintAntiAlias : Bool)
    (rectWidth rectHeight : ℚ) (strokeWidth : ℚ) : OvalRoute :=
  if ¬isSimilarityTransformation viewMatrix skScalarNearlyZeroTol ∨
      ¬paintAntiAlias ∨ rectHeight ≠ rectWidth then
    OvalRoute.path (if strokeWidth = 0 then GrPathFill.hairline else GrPathFill.winding)
  else
    OvalRoute.circle

/-- The identity view matrix. -/
def identityMatrix : SkMatrix := ⟨1, 0, 0, 0, 1, 0, 0, 0, 1⟩

/-- C6 counterexample: under the identity matrix (a similarity transform)
with zero stroke width but antialiasing off, `drawOval` takes the generic
path route, not the circle fast path — so the claimed "if and only if
similarity and zero stroke width" fails. -/
theorem drawOval_claim_counterexample :
    isSimilarityTransformation identityMatrix skScalarNearlyZeroTol = true ∧
    drawOvalRoute identityMatrix false 1 1 0 = OvalRoute.path GrPathFill.hairline ∧
    OvalRoute.path GrPathFill.hairline ≠ OvalRoute.circle := by
  refine ⟨by decide, by decide, by decide⟩

/-- C6 (amended): `drawOval` takes the circle fast path exactly when the
view matrix is a similarity transform, the paint is antialiased, and the
rect is square; in every other case the oval is rendered through the
generic path route, as a hairline path when the stroke width is zero and a
winding-filled path otherwise. -/
theorem drawOval_fast_path_condition (m : SkMatrix) (aa : Bool) (w h sw : ℚ) :
    (drawOvalRoute m aa w h sw = OvalRoute.circle ↔
      (isSimilarityTransformation m skScalarNearlyZeroTol = true ∧ aa = true ∧ h = w)) ∧
    (¬(isSimilarityTransformation m skScalarNearlyZeroTol = true ∧ aa = true ∧ h = w) →
      drawOvalRoute m aa w h sw =
        OvalRoute.path (if sw = 0 then GrPathFill.hairline else GrPathFill.winding)) := by
  unfold drawOvalRoute
  constructor
  · split
    · rename_i hcnd
      constructor
      · intro hbad
        simp at hbad
      · rintro ⟨hsim, haa, hhw⟩
        rcases hcnd with hns | hna | hne
        · exact absurd hsim hns
        · exact absurd haa hna
        · exact absurd hhw hne
    · rename_i hcnd
      push_neg at hcnd
      rcases hcnd with ⟨hsim, haa, hhw⟩
      simp_all
  · intro hnot
    split
    · rfl
    · rename_i hcnd
      push_neg at hcnd
      rcases hcnd with ⟨hsim, haa, hhw⟩
      exact absurd ⟨hsim, haa, hhw⟩ hnot

/-! Path-renderer selection. -/

/-- A path renderer: one supplied by the external chain, or the lazily
constructed software fallback. -/
inductive GrPathRenderer
  | chain (n : Nat)
  | software
  deriving DecidableEq, Repr

/-- `GrContext::getPathRenderer`: the chain's choice if it has one;
otherwise, when `allowSW`, the (always constructible) software path
renderer; otherwise no renderer. -/
def getPathRenderer (chainResult : Option GrPathRenderer) (allowSW : Bool) :
    Option GrPathRenderer :=
  match chainResult with
  | some pr => some pr
  | none => if allowSW then some GrPathRenderer.software else none

/-- Outcome of a path draw. -/
inductive PathDrawOutcome
  | skipped
  | drawn (pr : GrPathRenderer) (antiAlias : Bool)
  deriving DecidableEq, Repr

/-- The draw command(s) an outcome issues to the draw target. -/
def pathDrawCommands : PathDrawOutcome → List (GrPathRenderer × Bool)
  | PathDrawOutcome.skipped => []
  | PathDrawOutcome.drawn pr aa => [(pr, aa)]

/-- Tail of `GrContext::internalDrawPath` after renderer selection: a null
renderer returns silently (no draw command, no error signalled — the
function is `void`); otherwise the renderer draws the path. -/
def pathDrawDispatch (pr : Option GrPathRenderer) (prAA : Bool) : PathDrawOutcome :=
  match pr with
  | none => PathDrawOutcome.skipped
  | some r => PathDrawOutcome.drawn r prAA

/-- `GrContext::internalDrawPath`: coverage AA is dropped when the target
cannot apply coverage, the renderer is selected with the software fallback
allowed, and the draw dispatches on the selection. -/
def internalDrawPath (chainResult : Option GrPathRenderer)
    (canApplyCoverage : Bool) (paintAntiAlias : Bool) (multisampled : Bool) :
    PathDrawOutcome :=
  let prAA := paintAntiAlias && !multisampled
  let prAA2 := if !canApplyCoverage then false else prAA
  pathDrawDispatch (getPathRenderer chainResult true) prAA2

/-- C7: when the path-renderer chain yields no renderer and the software
fallback is not permitted, renderer selection comes back empty, and
dispatching the path draw on an empty selection issues no draw command and
signals no error — the draw is silently skipped. (`internalDrawPath`
itself always permits the fallback; the disallowed-fallback selection is
reached through `getPathRenderer`'s `allowSW = false` mode.) -/
theorem pathDraw_silent_skip (chainResult : Option GrPathRenderer) (prAA : Bool)
    (h : chainResult = none) :
    getPathRenderer chainResult false = none ∧
    pathDrawDispatch (getPathRenderer chainResult false) prAA = PathDrawOutcome.skipped ∧
    pathDrawCommands (pathDrawDispatch (getPathRenderer chainResult false) prAA) = [] := by
  subst h
  exact ⟨rfl, rfl, rfl⟩

/-! Concrete states and witnesses. -/

/-- A concrete draw state for concrete evaluations. -/
def sampleDrawState : GrDrawState :=
  ⟨fun _ => 0, fun _ => false, 0, 0, false, false, false, 0, 0, 0, 0, 0, 0⟩

/-- A concrete context state with a live draw buffer holding one recorded
command, whose previous draw was buffered. -/
def sampleCtx : GrContextState :=
  ⟨sampleDrawState, true, some [7], 0, 0, [], 0⟩

/-- A concrete read environment: a texture-backed 8888 render target with
no flip/swap preference and a device that preserves unpremul pixels. -/
def sampleReadEnv : ReadEnv :=
  ⟨true, GrPixelConfig.rgba8888, true, true, fun _ => false, fun _ => false, true⟩

theorem lockScratchTexture_relaxation_order_witness :
    (lockScratchTexture (fun _ => true) emptyCache ⟨⟨false, false⟩, 1, 1, 0⟩
        ScratchTexMatch.approx).attempts =
      claimedRelaxationAttempts ⟨false, false⟩ (max 256 (grNextPow2 1))
        (max 256 (grNextPow2 1)) 0 ∧
    (lockScratchTexture (fun _ => true) emptyCache ⟨⟨false, false⟩, 1, 1, 0⟩
        ScratchTexMatch.exact).attempts = [⟨⟨false, false⟩, 1, 1, 0⟩] ∧
    (lockScratchTexture (fun _ => true) emptyCache ⟨⟨false, false⟩, 1, 1, 0⟩
        ScratchTexMatch.approx).created =
      some (⟨⟨false, false⟩, max 256 (grNextPow2 1), max 256 (grNextPow2 1), 0⟩, 0) := by
  have h := lockScratchTexture_relaxation_order 1 1 0 ⟨false, false⟩ (fun _ => true)
  exact ⟨h.1, h.2.1, h.2.2 rfl⟩

theorem lockScratchTexture_exclusive_witness :
    (lockScratchTexture (fun _ => true) emptyCache ⟨⟨false, false⟩, 1, 1, 0⟩
        ScratchTexMatch.approx).res = some 0 ∧
    (lockScratchTexture (fun _ => true)
        (lockScratchTexture (fun _ => true) emptyCache ⟨⟨false, false⟩, 1, 1, 0⟩
          ScratchTexMatch.approx).cache ⟨⟨false, false⟩, 1, 1, 0⟩
        ScratchTexMatch.approx).res = some 1 ∧
    (0 : Nat) ≠ 1 ∧
    (0 : Nat) ∉ (lockScratchTexture (fun _ => true) emptyCache ⟨⟨false, false⟩, 1, 1, 0⟩
        ScratchTexMatch.approx).cache.attached.map (fun e => e.2) := by
  have hwf : ∀ e ∈ emptyCache.attached, e.2 < emptyCache.nextId := by
    simp [emptyCache]
  have h := lockScratchTexture_exclusive (fun _ => true) emptyCache
    ⟨⟨false, false⟩, 1, 1, 0⟩ ScratchTexMatch.approx hwf
  have h1 : (lockScratchTexture (fun _ => true) emptyCache ⟨⟨false, false⟩, 1, 1, 0⟩
      ScratchTexMatch.approx).res = some 0 := by
    simp [lockScratchTexture, relaxLoop, emptyCache, CacheState.find, CacheState.detach,
      grNextPow2, grNextPow2Go]
  have h2 : (lockScratchTexture (fun _ => true)
      (lockScratchTexture (fun _ => true) emptyCache ⟨⟨false, false⟩, 1, 1, 0⟩
        ScratchTexMatch.approx).cache ⟨⟨false, false⟩, 1, 1, 0⟩
      ScratchTexMatch.approx).res = some 1 := by
    simp [lockScratchTexture, relaxLoop, emptyCache, CacheState.find, CacheState.detach,
      grNextPow2, grNextPow2Go]
  exact ⟨h1, h2, h.2 0 1 h1 h2, h.1 0 h1⟩

theorem lockScratchTexture_creates_binned_unrelaxed_witness :
    ((lockScratchTexture (fun _ => true) emptyCache ⟨⟨false, false⟩, 1, 1, 0⟩
        ScratchTexMatch.approx).created =
      some (⟨⟨false, false⟩, max 256 (grNextPow2 1), max 256 (grNextPow2 1), 0⟩, 0) ∧
     (lockScratchTexture (fun _ => true) emptyCache
        ⟨⟨false, false⟩, 1, 1, 0⟩ ScratchTexMatch.approx).cache.detached =
      [(⟨⟨false, false⟩, max 256 (grNextPow2 1), max 256 (grNextPow2 1), 0⟩, 0)]) ∧
    ((lockScratchTexture (fun _ => true) emptyCache ⟨⟨false, false⟩, 1, 1, 0⟩
        ScratchTexMatch.exact).created = some (⟨⟨false, false⟩, 1, 1, 0⟩, 0) ∧
     (lockScratchTexture (fun _ => true) emptyCache
        ⟨⟨false, false⟩, 1, 1, 0⟩ ScratchTexMatch.exact).cache.detached =
      [(⟨⟨false, false⟩, 1, 1, 0⟩, 0)]) :=
  lockScratchTexture_creates_binned_unrelaxed 1 1 0 ⟨false, false⟩ (fun _ => true) rfl rfl

theorem prepareToDraw_transition_witness :
    (prepareToDraw none false sampleCtx).2.flushCount = sampleCtx.flushCount + 1 ∧
    (prepareToDraw none true sampleCtx).2.flushCount = sampleCtx.flushCount ∧
    (prepareToDraw none true sampleCtx).1 = DrawTargetRef.drawBuffer ∧
    (prepareToDraw none false sampleCtx).1 = DrawTargetRef.gpu := by
  have h := prepareToDraw_transition sampleCtx none
  exact ⟨h.1 [7] rfl rfl, h.2.1, h.2.2.1, h.2.2.2⟩

theorem flushDrawBuffer_reentrant_safe_witness :
    sampleCtx.drawBuffer = some [7] ∧
    (flushDrawBufferWith flushTo sampleCtx =
      { flushTo [7] { sampleCtx with drawBuffer := none } with drawBuffer := some [] }) ∧
    (flushDrawBufferWith flushTo { sampleCtx with drawBuffer := none } =
      { sampleCtx with drawBuffer := none }) := by
  have h := flushDrawBuffer_reentrant_safe flushTo sampleCtx [7] rfl
  exact ⟨rfl, h.1, h.2.2 _ rfl⟩

theorem drawOval_fast_path_condition_witness :
    drawOvalRoute identityMatrix true 1 1 0 = OvalRoute.circle ∧
    drawOvalRoute identityMatrix false 2 2 (-1) = OvalRoute.path GrPathFill.winding := by
  have h1 := (drawOval_fast_path_condition identityMatrix true 1 1 0).1.mpr
    ⟨by decide, rfl, rfl⟩
  have h2 := (drawOval_fast_path_condition identityMatrix false 2 2 (-1)).2 (by decide)
  exact ⟨h1, h2.trans (by decide)⟩

theorem pathDraw_silent_skip_witness :
    getPathRenderer none false = none ∧
    pathDrawDispatch (getPathRenderer none false) true = PathDrawOutcome.skipped ∧
    pathDrawCommands (pathDrawDispatch (getPathRenderer none false) true) = [] :=
  pathDraw_silent_skip none true rfl

theorem pixelOps_flush_before_device_witness :
    PixelEvent.flush ∉
      (readRenderTargetPixels sampleReadEnv true GrPixelConfig.rgba8888 ⟨false, true⟩).2 ∧
    PixelEvent.flush ∉ writeTexturePixels ⟨false, true⟩ ∧
    (∃ j, j < 1 ∧
      (readRenderTargetPixels sampleReadEnv true GrPixelConfig.rgba8888
        ⟨false, false⟩).2.get? j = some PixelEvent.flush) ∧
    (∃ j, j < 1 ∧
      (writeTexturePixels ⟨false, false⟩).get? j = some PixelEvent.flush) := by
  have hT := pixelOps_flush_before_device sampleReadEnv true GrPixelConfig.rgba8888
    ⟨false, true⟩
  have hF := pixelOps_flush_before_device sampleReadEnv true GrPixelConfig.rgba8888
    ⟨false, false⟩
  refine ⟨(hT.1 rfl).1, (hT.1 rfl).2, ?_, ?_⟩
  · refine (hF.2 rfl).1 1 PixelEvent.deviceRead ?_ rfl
    simp [readRenderTargetPixels, sampleReadEnv]
  · exact (hF.2 rfl).2 1 PixelEvent.deviceWrite (by simp [writeTexturePixels]) rfl

theorem writeTexturePixels_unpremul_noop_witness :
    writeTexturePixels ⟨true, false⟩ = [] :=
  writeTexturePixels_unpremul_noop ⟨true, false⟩ rfl
